import Mathlib

/-!
Shallow embedding of the mediagent repository's Bayesian diagnostic engine
and investigation workflow, with theorems checking the natural-language
specification against the code.

Probabilities, costs and confidences are JavaScript numbers in the source;
they are modelled as rationals (ℚ), i.e. exact real arithmetic.  The
hypotheses of the theorems keep all quantities in ranges where the
JavaScript float computation is finite (no division of a nonzero number by
zero, no NaN), which is where the rational model is faithful.

Sources embedded:
  * `bayesian_engine` (src/unnamed/part_001): `BayesianDiagnosticEngine`
    with `initializeEvidenceBase`, `initializeDiagnosis`,
    `updateWithEvidence`, `calculateLikelihoodRatio` (here `calculateLR`),
    `generateEvidenceKey`, `normalizeProbabilities`,
    `calculateInformationGain` and its helpers.
  * `medical_graph` (src/unnamed/part_000): `initializeCase` and
    `routeWorkflow` over the LangGraph state.
  * `patient_question_agent.ts`: `shouldGenerateQuestions`.
  * `ChainOfDebate.synthesizeDebateResults` and `determineNextPhase`
    (the class embedded in tests/bayesian_integration.test.ts).
-/

/-! ## Bayesian diagnostic engine (src/unnamed/part_001) -/

/-- The `type` union of `DiagnosticEvidence` in the source. -/
inductive EvidenceKind where
  | symptom
  | test_result
  | demographic
  | history
deriving DecidableEq

/-- The `string | number | boolean` union of the `value` field. -/
inductive EvValue where
  | bool (b : Bool)
  | num (n : ℚ)
  | str (s : String)
deriving DecidableEq

/-- JavaScript `String(value)` for the three value shapes.  The exact
rendering of numbers is abstracted by Lean's rational printer; the keys
built from it are only compared for equality against table keys, and no
table key in the repository has a numeric suffix. -/
def evValueToString : EvValue → String
  | .bool b => if b then "true" else "false"
  | .num n => toString n
  | .str s => s

/-- `DiagnosticEvidence` from the source.  The `timestamp : Date` field is
never read by any computation and is omitted. -/
structure DiagnosticEvidence where
  kind : EvidenceKind
  name : String
  value : EvValue
  confidence : ℚ
deriving DecidableEq

/-- `BayesianDiagnosis`: the per-condition belief record. -/
structure BayesianDiagnosis where
  condition : String
  priorProbability : ℚ
  posteriorProbability : ℚ
  likelihood : ℚ
  evidence : List DiagnosticEvidence
  icd10Code : Option String
deriving DecidableEq

/-- `BayesianUpdate`: the per-condition record returned by
`updateWithEvidence`.  The last field is named `likelihoodRatio` in the
source. -/
structure BayesianUpdate where
  diagnosis : String
  oldProbability : ℚ
  newProbability : ℚ
  evidence : DiagnosticEvidence
  likelihoodRatioValue : ℚ
deriving DecidableEq

/-- Replacement of every maximal run of whitespace by a single `'_'`,
i.e. JavaScript `replace(/\s+/g, '_')` at the character-list level.  The
flag records whether the previous character belonged to a whitespace run
already replaced. -/
def collapseWsAux : Bool → List Char → List Char
  | _, [] => []
  | inRun, c :: rest =>
    if c.isWhitespace then
      if inRun then collapseWsAux true rest
      else '_' :: collapseWsAux true rest
    else
      c :: collapseWsAux false rest

/-- JavaScript `toLowerCase()` at the character level. -/
def jsToLower (s : String) : String :=
  String.mk (s.data.map Char.toLower)

/-- `generateEvidenceKey`: normalize evidence name and value into the
standardized lookup key.  The source's separate numeric branch and final
return build the same string and are merged here. -/
def generateEvidenceKey (ev : DiagnosticEvidence) : String :=
  let normalizedName := String.mk (collapseWsAux false (jsToLower ev.name).data)
  let normalizedValue := jsToLower (evValueToString ev.value)
  match ev.value with
  | .bool b => if b then normalizedName else "no_" ++ normalizedName
  | _ =>
    if normalizedValue = "true" ∨ normalizedValue = "positive" ∨
        normalizedValue = "elevated" then
      normalizedName
    else
      normalizedName ++ "_" ++ normalizedValue

/-- The evidence base: condition → evidence key → base likelihood value,
a JavaScript `Map` of `Map`s modelled as insertion-ordered association
lists. -/
abbrev LikelihoodTable := List (String × List (String × ℚ))

/-- `Map.set` on an inner association list. -/
def setEntry (m : List (String × ℚ)) (k : String) (v : ℚ) : List (String × ℚ) :=
  if (m.lookup k).isSome then
    m.map (fun p => if p.1 = k then (k, v) else p)
  else
    m ++ [(k, v)]

/-- `setLikelihood(condition, evidence, likelihood)`. -/
def setLikelihood (base : LikelihoodTable) (condition evidenceKey : String)
    (l : ℚ) : LikelihoodTable :=
  if (base.lookup condition).isSome then
    base.map (fun p =>
      if p.1 = condition then (p.1, setEntry p.2 evidenceKey l) else p)
  else
    base ++ [(condition, setEntry [] evidenceKey l)]

/-- The `setLikelihood` calls of `initializeEvidenceBase`, in source
order. -/
def likelihoodEntries : List (String × String × ℚ) :=
  [ ("myocardial_infarction", "chest_pain_crushing", 8),
    ("myocardial_infarction", "diaphoresis", 3),
    ("myocardial_infarction", "nausea", 2),
    ("myocardial_infarction", "troponin_elevated", 20),
    ("myocardial_infarction", "age_over_65", 5/2),
    ("myocardial_infarction", "fever", 3/10),
    ("pneumonia", "fever", 4),
    ("pneumonia", "no_fever", 3/10),
    ("pneumonia", "cough", 5),
    ("pneumonia", "shortness_of_breath", 3),
    ("pneumonia", "chest_xray_infiltrate", 15),
    ("pneumonia", "chest_pain_crushing", 1/5),
    ("pneumonia", "troponin_elevated", 1/10),
    ("gastroenteritis", "nausea", 4),
    ("gastroenteritis", "vomiting", 6),
    ("gastroenteritis", "diarrhea", 8),
    ("gastroenteritis", "abdominal_pain", 5),
    ("gastroenteritis", "fever", 2),
    ("gastroenteritis", "chest_pain_crushing", 1/10),
    ("gastroenteritis", "troponin_elevated", 1/20) ]

/-- `initializeEvidenceBase`: the table built by the constructor. -/
def initializeEvidenceBase : LikelihoodTable :=
  likelihoodEntries.foldl (fun b e => setLikelihood b e.1 e.2.1 e.2.2) []

/-- The value of `initializeEvidenceBase`, written out; proved equal to
the fold below and used to keep concrete computations small. -/
def evidenceBaseLit : LikelihoodTable :=
  [ ("myocardial_infarction",
      [("chest_pain_crushing", 8), ("diaphoresis", 3), ("nausea", 2),
       ("troponin_elevated", 20), ("age_over_65", 5/2), ("fever", 3/10)]),
    ("pneumonia",
      [("fever", 4), ("no_fever", 3/10), ("cough", 5),
       ("shortness_of_breath", 3), ("chest_xray_infiltrate", 15),
       ("chest_pain_crushing", 1/5), ("troponin_elevated", 1/10)]),
    ("gastroenteritis",
      [("nausea", 4), ("vomiting", 6), ("diarrhea", 8),
       ("abdominal_pain", 5), ("fever", 2), ("chest_pain_crushing", 1/10),
       ("troponin_elevated", 1/20)]) ]

/-- The engine: the belief store `diagnoses` and the likelihood table. -/
structure BayesianDiagnosticEngine where
  diagnoses : List BayesianDiagnosis
  evidenceBase : LikelihoodTable
deriving DecidableEq

/-- The constructor `new BayesianDiagnosticEngine()`. -/
def BayesianDiagnosticEngine.new : BayesianDiagnosticEngine :=
  { diagnoses := [], evidenceBase := initializeEvidenceBase }

/-- `Map.set` on the belief store: overwrite in place if the key exists,
append otherwise. -/
def mapSetDiag (ds : List BayesianDiagnosis) (d : BayesianDiagnosis) :
    List BayesianDiagnosis :=
  if ds.any (fun x => x.condition == d.condition) then
    ds.map (fun x => if x.condition = d.condition then d else x)
  else
    ds ++ [d]

/-- `initializeDiagnosis(condition, priorProbability, icd10Code?)`. -/
def initializeDiagnosis (e : BayesianDiagnosticEngine) (condition : String)
    (priorProbability : ℚ) (icd10Code : Option String) :
    BayesianDiagnosticEngine :=
  { e with
    diagnoses := mapSetDiag e.diagnoses
      { condition := condition
        priorProbability := priorProbability
        posteriorProbability := priorProbability
        likelihood := 1
        evidence := []
        icd10Code := icd10Code } }

/-- `calculateLikelihoodRatio(condition, evidence)` from the source
(shortened name): table lookup with neutral default 1.0, then the
confidence adjustment `1 + (LR - 1) * confidence`. -/
def calculateLR (e : BayesianDiagnosticEngine) (condition : String)
    (ev : DiagnosticEvidence) : ℚ :=
  let evidenceKey := generateEvidenceKey ev
  match (e.evidenceBase.lookup condition).bind (fun m => m.lookup evidenceKey) with
  | none => 1
  | some lr => 1 + (lr - 1) * ev.confidence

/-- `Math.min(Math.max(p, 0.001), 0.999)`. -/
def clampProb (p : ℚ) : ℚ :=
  min (max p (1/1000)) (999/1000)

/-- The loop body of `updateWithEvidence` for one condition: produces the
returned update record and the mutated belief record. -/
def updateStep (e : BayesianDiagnosticEngine) (ev : DiagnosticEvidence)
    (d : BayesianDiagnosis) : BayesianUpdate × BayesianDiagnosis :=
  let lr := calculateLR e d.condition ev
  let oldProbability := d.posteriorProbability
  let oldOdds := oldProbability / (1 - oldProbability)
  let newOdds := lr * oldOdds
  let newProbability := newOdds / (1 + newOdds)
  let stored := clampProb newProbability
  ( { diagnosis := d.condition
      oldProbability := oldProbability
      newProbability := stored
      evidence := ev
      likelihoodRatioValue := lr },
    { d with
      posteriorProbability := stored
      evidence := d.evidence ++ [ev]
      likelihood := d.likelihood * lr } )

/-- `normalizeProbabilities`: when the posteriors sum above 1, scale all of
them by `0.95 / total`. -/
def normalizeProbabilities (ds : List BayesianDiagnosis) :
    List BayesianDiagnosis :=
  let totalProbability := (ds.map (fun d => d.posteriorProbability)).sum
  if 1 < totalProbability then
    ds.map (fun d =>
      { d with
        posteriorProbability :=
          d.posteriorProbability * ((19/20) / totalProbability) })
  else
    ds

/-- `updateWithEvidence(evidence)`: update every tracked condition, collect
the per-condition update records, then normalize the store. -/
def updateWithEvidence (e : BayesianDiagnosticEngine)
    (ev : DiagnosticEvidence) : List BayesianUpdate × BayesianDiagnosticEngine :=
  let pairs := e.diagnoses.map (updateStep e ev)
  let updates := pairs.map (fun p => p.1)
  let e' := { e with diagnoses := normalizeProbabilities (pairs.map (fun p => p.2)) }
  (updates, e')

/-- Posterior of the (single) stored condition after an update; used to
state the monotonicity properties. -/
def postAfter (e : BayesianDiagnosticEngine) (ev : DiagnosticEvidence) : ℚ :=
  (((updateWithEvidence e ev).2.diagnoses).map
    (fun d => d.posteriorProbability)).headD 0

/-- `calculateEntropy`: Shannon entropy of the normalized posteriors.  The
source uses `Math.log2`; the logarithm is passed in as a parameter since
none of the verified properties depend on its values. -/
def calculateEntropy (log2 : ℚ → ℚ) (e : BayesianDiagnosticEngine) : ℚ :=
  let probabilities := e.diagnoses.map (fun d => d.posteriorProbability)
  let total := probabilities.sum
  probabilities.foldl
    (fun entropy prob =>
      if 0 < prob then entropy - (prob / total) * log2 (prob / total)
      else entropy) 0

/-- `calculateHypotheticalUpdates`: the same per-condition Bayes step as
`updateWithEvidence`, but only building the update records; the store is
not written. -/
def calculateHypotheticalUpdates (e : BayesianDiagnosticEngine)
    (ev : DiagnosticEvidence) : List BayesianUpdate :=
  e.diagnoses.map (fun d =>
    let lr := calculateLR e d.condition ev
    let oldProbability := d.posteriorProbability
    let oldOdds := oldProbability / (1 - oldProbability)
    let newOdds := lr * oldOdds
    let newProbability := newOdds / (1 + newOdds)
    { diagnosis := d.condition
      oldProbability := oldProbability
      newProbability := clampProb newProbability
      evidence := ev
      likelihoodRatioValue := lr })

/-- `calculateEntropyFromUpdates`. -/
def calculateEntropyFromUpdates (log2 : ℚ → ℚ)
    (updates : List BayesianUpdate) : ℚ :=
  let probabilities := updates.map (fun u => u.newProbability)
  let total := probabilities.sum
  probabilities.foldl
    (fun entropy prob =>
      if 0 < prob then entropy - (prob / total) * log2 (prob / total)
      else entropy) 0

/-- `calculateOutcomeProbability`: the fixed 0.5 outcome weight. -/
def calculateOutcomeProbability (_ev : DiagnosticEvidence) : ℚ := 1/2

/-- `calculateInformationGain(potentialEvidence)`.  The method is embedded
in state-passing style, returning the engine alongside the gain: every
helper it calls only reads the store, so the returned engine is the input
engine, which is exactly the frame property claimed by the spec. -/
def calculateInformationGain (log2 : ℚ → ℚ) (e : BayesianDiagnosticEngine)
    (potentialEvidence : DiagnosticEvidence) : ℚ × BayesianDiagnosticEngine :=
  let currentEntropy := calculateEntropy log2 e
  let expectedEntropyAfterEvidence :=
    (([true, false]).map (fun outcome =>
      let tempEvidence := { potentialEvidence with value := .bool outcome }
      let hypotheticalUpdates := calculateHypotheticalUpdates e tempEvidence
      let entropyAfterEvidence :=
        calculateEntropyFromUpdates log2 hypotheticalUpdates
      calculateOutcomeProbability tempEvidence * entropyAfterEvidence)).sum
  (currentEntropy - expectedEntropyAfterEvidence, e)

/-! ## Workflow state (medical_state, version used by src/unnamed/part_000)

The snapshot's `medical_state` file (src/unnamed/part_002) is an older
revision without the `interactionRound` channel; the graph in
src/unnamed/part_000 and every test construct states with
`interactionRound`, so it is included here.  Channels never read by the
embedded operations (`revealedInformation`, `diagnosticTests`,
`userResponses`, `biasesDetected`, `reasoningQuality`) are omitted.
Message contents only matter as raw text for `initializeCase`, so messages
are modelled as their string contents. -/

/-- The `DiagnosticPhase` union. -/
inductive DiagnosticPhase where
  | case_presentation
  | initial_assessment
  | information_gathering
  | patient_interaction
  | test_selection
  | deliberation
  | final_diagnosis
deriving DecidableEq

/-- `demographics` of `CaseInformation`. -/
structure Demographics where
  age : ℚ
  gender : String
deriving DecidableEq

/-- `CaseInformation`. -/
structure CaseInformation where
  patientId : String
  demographics : Demographics
  chiefComplaint : String
  historyOfPresentIllness : Option String
  pastMedicalHistory : Option (List String)
  medications : Option (List String)
  allergies : Option (List String)
  familyHistory : Option (List String)
  socialHistory : Option String
deriving DecidableEq

/-- `DiagnosisHypothesis`. -/
structure DiagnosisHypothesis where
  condition : String
  probability : ℚ
  supportingEvidence : List String
  reasoning : String
  icd10Code : Option String
deriving DecidableEq

/-- `PatientQuestion` (the `timestamp` is omitted; the literal unions are
kept as strings). -/
structure PatientQuestion where
  id : String
  requestingAgent : String
  category : String
  question : String
  priority : String
deriving DecidableEq

/-- `AgentTurn`, restricted to the fields the embedded functions read. -/
structure AgentTurn where
  agentRole : String
  reasoning : String
  recommendations : List String
  testsRequested : Option (List String)
deriving DecidableEq

/-- The LangGraph case state. -/
structure MedicalDiagnosticState where
  messages : List String
  differentialDiagnoses : List DiagnosisHypothesis
  availableCaseInfo : CaseInformation
  cumulativeCost : ℚ
  costBudget : ℚ
  currentPhase : DiagnosticPhase
  debateRound : ℕ
  agentTurns : List AgentTurn
  pendingQuestions : List PatientQuestion
  awaitingUserInput : Bool
  questionHistory : List PatientQuestion
  confidenceLevel : ℚ
  readyForDiagnosis : Bool
  finalDiagnosis : Option DiagnosisHypothesis
  interactionRound : ℕ
deriving DecidableEq

/-- JavaScript `s.includes(t)` for a non-empty search string `t`: `t`
occurs in `s` exactly when splitting on `t` yields more than one piece. -/
def jsIncludes (s t : String) : Bool :=
  1 < (s.splitOn t).length

/-! ## shouldGenerateQuestions (patient_question_agent.ts) -/

/-- The `hasInfoRequests` computation inside `shouldGenerateQuestions`:
do the last two agent turns textually signal an information request. -/
def hasInfoRequests (s : MedicalDiagnosticState) : Bool :=
  (s.agentTurns.drop (s.agentTurns.length - 2)).any (fun turn =>
    turn.recommendations.any (fun r =>
      jsIncludes (jsToLower r) "need" ||
      jsIncludes (jsToLower r) "require" ||
      jsIncludes (jsToLower r) "ask" ||
      jsIncludes (jsToLower r) "clarify"))

/-- `shouldGenerateQuestions(state)`, with the source's checks in source
order (low confidence, diagnosis fan-out, info requests in the last two
turns, information-gathering phase, pending questions, final `false`). -/
def shouldGenerateQuestions (s : MedicalDiagnosticState) : Bool :=
  if s.confidenceLevel < 3/5 then true
  else if 4 < s.differentialDiagnoses.length then true
  else if hasInfoRequests s then true
  else if s.currentPhase = DiagnosticPhase.information_gathering then true
  else if 0 < s.pendingQuestions.length then false
  else false

/-! ## routeWorkflow (src/unnamed/part_000) -/

/-- `routeWorkflow(state)`: the conditional-edge function out of the
`medical_debate` node, returning the next node name. -/
def routeWorkflow (s : MedicalDiagnosticState) : String :=
  if s.awaitingUserInput then "patient_interaction"
  else if shouldGenerateQuestions s then "patient_interaction"
  else if s.readyForDiagnosis ∨ s.currentPhase = DiagnosticPhase.final_diagnosis then
    if s.interactionRound < 3 ∧ s.confidenceLevel < 4/5 then "patient_interaction"
    else "final_assessment"
  else if s.costBudget ≤ s.cumulativeCost then "final_assessment"
  else if 5 ≤ s.debateRound then
    if s.interactionRound < 3 ∨ shouldGenerateQuestions s then "patient_interaction"
    else "final_assessment"
  else if 0 < s.debateRound ∧ s.debateRound % 2 = 0 ∧ s.interactionRound < 3 then
    "patient_interaction"
  else
    match s.agentTurns.getLast? with
    | some turn =>
      match turn.testsRequested with
      | some tests => if 0 < tests.length then "diagnostic_tools" else "medical_debate"
      | none => "medical_debate"
    | none => "medical_debate"

/-! ## initializeCase (src/unnamed/part_000) -/

/-- The partial state update a LangGraph node returns; `none` means the
channel is not updated. -/
structure StateUpdate where
  availableCaseInfo : Option CaseInformation := none
  currentPhase : Option DiagnosticPhase := none
  costBudget : Option ℚ := none
  messages : Option (List String) := none
deriving DecidableEq

/-- Application of a node's partial update through the channel reducers:
`availableCaseInfo` is replaced (the node always supplies a complete
record), `currentPhase` and `costBudget` replace when supplied, and
`messages` are concatenated. -/
def applyUpdate (s : MedicalDiagnosticState) (u : StateUpdate) :
    MedicalDiagnosticState :=
  { s with
    availableCaseInfo := u.availableCaseInfo.getD s.availableCaseInfo
    currentPhase := u.currentPhase.getD s.currentPhase
    costBudget := u.costBudget.getD s.costBudget
    messages := s.messages ++ u.messages.getD [] }

/-- The fallback case record built by `initializeCase` when extraction is
unavailable; `now` stands for `Date.now()`. -/
def fallbackCaseInfo (now : ℕ) (chief hist : String) : CaseInformation :=
  { patientId := "CASE_" ++ toString now
    demographics := { age := 45, gender := "unknown" }
    chiefComplaint := chief
    historyOfPresentIllness := some hist
    pastMedicalHistory := some []
    medications := some []
    allergies := some []
    familyHistory := some []
    socialHistory := some "" }

/-- `initializeCase(state)`.  The call to the external extraction oracle
is represented by `extractResult` (`none` models a thrown error or
unusable output, handled by the catch branch).  The guard branch returns
the empty update when a patient id is already present — the JavaScript
truthiness test on `availableCaseInfo?.patientId`, whose default is the
empty string. -/
def initializeCase (s : MedicalDiagnosticState) (now : ℕ)
    (extractResult : Option CaseInformation) : StateUpdate :=
  if s.availableCaseInfo.patientId ≠ "" then
    {}
  else
    let caseText := (s.messages.getLast?).getD ""
    if caseText.trim = "" then
      { availableCaseInfo :=
          some (fallbackCaseInfo now "Patient case presentation"
            "Initial case presentation")
        currentPhase := some DiagnosticPhase.initial_assessment
        costBudget := some 1000
        messages := some (s.messages ++
          ["Case initialized - Please provide patient information"]) }
    else
      match extractResult with
      | some caseInfo =>
        { availableCaseInfo := some caseInfo
          currentPhase := some DiagnosticPhase.initial_assessment
          costBudget := some 1000
          messages := some (s.messages ++ ["Case initialized"]) }
      | none =>
        { availableCaseInfo :=
            some (fallbackCaseInfo now (caseText.take 100) caseText)
          currentPhase := some DiagnosticPhase.initial_assessment
          costBudget := some 1000
          messages := some (s.messages ++ ["Case initialized with basic info"]) }

/-! ## ChainOfDebate synthesis (tests/bayesian_integration.test.ts) -/

/-- `DebateConfiguration` (the participating-agents list does not affect
the synthesis computation and is omitted). -/
structure DebateConfiguration where
  maxRounds : ℕ
  confidenceThreshold : ℚ
  costBudgetLimit : ℚ
deriving DecidableEq

/-- The constructor defaults. -/
def defaultDebateConfig : DebateConfiguration :=
  { maxRounds := 2, confidenceThreshold := 4/5, costBudgetLimit := 1000 }

/-- `determineNextPhase(state, confidenceLevel)`. -/
def determineNextPhase (cfg : DebateConfiguration)
    (s : MedicalDiagnosticState) (confidenceLevel : ℚ) : DiagnosticPhase :=
  if cfg.confidenceThreshold ≤ confidenceLevel then
    DiagnosticPhase.final_diagnosis
  else
    match s.currentPhase with
    | .case_presentation => .initial_assessment
    | .initial_assessment => .information_gathering
    | .information_gathering => .test_selection
    | .test_selection => .deliberation
    | .deliberation =>
      if 3/5 < confidenceLevel then .final_diagnosis else .information_gathering
    | _ => .final_diagnosis

/-- The decision fields of the update returned by
`synthesizeDebateResults`. -/
structure SynthesisOutcome where
  finalDiagnosis : Option DiagnosisHypothesis
  confidenceLevel : ℚ
  readyForDiagnosis : Bool
  currentPhase : DiagnosticPhase
deriving DecidableEq

/-- The deterministic core of `synthesizeDebateResults`: pick the first
element of the differential list as the final diagnosis (or `undefined`
on an empty list), derive the confidence from its percent probability,
and compare against the configured threshold.  The oracle call made for
narrative text and the message append do not feed these fields. -/
def synthesizeDebateResults (cfg : DebateConfiguration)
    (s : MedicalDiagnosticState) : SynthesisOutcome :=
  let finalDiagnosis := s.differentialDiagnoses.head?
  let confidenceLevel :=
    match finalDiagnosis with
    | some d => d.probability / 100
    | none => 0
  { finalDiagnosis := finalDiagnosis
    confidenceLevel := confidenceLevel
    readyForDiagnosis := decide (cfg.confidenceThreshold ≤ confidenceLevel)
    currentPhase := determineNextPhase cfg s confidenceLevel }

/-! ## Concrete instances used in the theorems -/

/-- Engine of spec concrete case 1: only `myocardial_infarction` with
prior 0.02. -/
def engC5 : BayesianDiagnosticEngine :=
  initializeDiagnosis BayesianDiagnosticEngine.new "myocardial_infarction" (1/50) none

/-- Evidence of spec concrete case 1: troponin elevated, confidence 0.95. -/
def evC5 : DiagnosticEvidence :=
  { kind := .test_result, name := "troponin_elevated", value := .bool true,
    confidence := 19/20 }

/-- Engine with one condition at the lower clamp bound and two dominating
conditions, so that the posteriors sum above 1 after a neutral update. -/
def engC1x : BayesianDiagnosticEngine :=
  initializeDiagnosis
    (initializeDiagnosis
      (initializeDiagnosis BayesianDiagnosticEngine.new
        "myocardial_infarction" (1/1000) none)
      "pneumonia" (9/10) none)
    "gastroenteritis" (9/10) none

/-- Evidence with no entry in the likelihood table (neutral ratio 1 for
every condition). -/
def evNeutral : DiagnosticEvidence :=
  { kind := .symptom, name := "widget", value := .bool true, confidence := 1 }

/-- Engine for the monotonicity counterexample: pneumonia at 0.5 next to
gastroenteritis at 0.9. -/
def engC6x : BayesianDiagnosticEngine :=
  initializeDiagnosis
    (initializeDiagnosis BayesianDiagnosticEngine.new "pneumonia" (1/2) none)
    "gastroenteritis" (9/10) none

/-- Fever present with full confidence: base ratio 4 for pneumonia. -/
def evFever : DiagnosticEvidence :=
  { kind := .symptom, name := "fever", value := .bool true, confidence := 1 }

/-- Fever absent with full confidence: key `no_fever`, base ratio 0.3 for
pneumonia. -/
def evNoFever : DiagnosticEvidence :=
  { kind := .symptom, name := "fever", value := .bool false, confidence := 1 }

/-- Troponin elevated with full confidence. -/
def evTroponin : DiagnosticEvidence :=
  { kind := .test_result, name := "troponin_elevated", value := .bool true,
    confidence := 1 }

/-- Troponin evidence reported with zero confidence. -/
def evTroponinZero : DiagnosticEvidence :=
  { kind := .test_result, name := "troponin_elevated", value := .bool true,
    confidence := 0 }

/-- Single-condition engine: myocardial infarction at 0.5. -/
def engMIHalf : BayesianDiagnosticEngine :=
  initializeDiagnosis BayesianDiagnosticEngine.new "myocardial_infarction" (1/2) none

/-- Single-condition engine: pneumonia at 0.5. -/
def engPneuHalf : BayesianDiagnosticEngine :=
  initializeDiagnosis BayesianDiagnosticEngine.new "pneumonia" (1/2) none

/-- Engine with two conditions both at 0.9, for the
normalization-vs-returned-records comparison. -/
def engC10x : BayesianDiagnosticEngine :=
  initializeDiagnosis
    (initializeDiagnosis BayesianDiagnosticEngine.new "pneumonia" (9/10) none)
    "gastroenteritis" (9/10) none

/-- A case record with a non-empty patient id. -/
def baseCaseInfo : CaseInformation :=
  { patientId := "CASE_1"
    demographics := { age := 65, gender := "male" }
    chiefComplaint := "chest pain"
    historyOfPresentIllness := none
    pastMedicalHistory := none
    medications := none
    allergies := none
    familyHistory := none
    socialHistory := none }

/-- A quiescent deliberation-phase state: no pending questions, no agent
turns, high confidence, within budget. -/
def baseState : MedicalDiagnosticState :=
  { messages := []
    differentialDiagnoses := []
    availableCaseInfo := baseCaseInfo
    cumulativeCost := 0
    costBudget := 1000
    currentPhase := DiagnosticPhase.deliberation
    debateRound := 1
    agentTurns := []
    pendingQuestions := []
    awaitingUserInput := false
    questionHistory := []
    confidenceLevel := 9/10
    readyForDiagnosis := false
    finalDiagnosis := none
    interactionRound := 0 }

/-- A pending patient question. -/
def qSample : PatientQuestion :=
  { id := "q_1", requestingAgent := "hypothesis", category := "symptoms",
    question := "When did the pain start?", priority := "high" }

/-- State at exactly the cost budget while awaiting user input. -/
def sC2x : MedicalDiagnosticState :=
  { baseState with cumulativeCost := 1000, awaitingUserInput := true }

/-- State at exactly the cost budget, quiescent. -/
def sC2w : MedicalDiagnosticState :=
  { baseState with cumulativeCost := 1000 }

/-- Deliberation state with `interactionRound = 0`, high confidence, and
the ready flag set. -/
def sC3x : MedicalDiagnosticState :=
  { baseState with readyForDiagnosis := true }

/-- Deliberation state with `interactionRound = 0` and confidence below
the 0.8 override threshold. -/
def sC3w : MedicalDiagnosticState :=
  { baseState with confidenceLevel := 7/10, readyForDiagnosis := true }

/-- Low-confidence state that already has a pending question. -/
def sC4x : MedicalDiagnosticState :=
  { baseState with confidenceLevel := 3/10, pendingQuestions := [qSample] }

/-- A differential list with a dominating first hypothesis. -/
def ddC7 : List DiagnosisHypothesis :=
  [ { condition := "myocardial_infarction", probability := 85,
      supportingEvidence := [], reasoning := "top", icd10Code := none },
    { condition := "pneumonia", probability := 10,
      supportingEvidence := [], reasoning := "alt", icd10Code := none } ]

/-- Deliberation state carrying the sorted differential list `ddC7`. -/
def sC7w : MedicalDiagnosticState :=
  { baseState with differentialDiagnoses := ddC7 }

/-! ## Lemmas about clamping and normalization -/

theorem clampProb_le (p : ℚ) : clampProb p ≤ 999/1000 :=
  min_le_right _ _

theorem clampProb_ge (p : ℚ) : 1/1000 ≤ clampProb p :=
  le_min (le_max_right _ _) (by norm_num)

theorem lt_clampProb {p x : ℚ} (hp : p < 999/1000) (hx : p < x) :
    p < clampProb x :=
  lt_min (lt_of_lt_of_le hx (le_max_left _ _)) hp

theorem clampProb_lt {p x : ℚ} (hp : 1/1000 < p) (hx : x < p) :
    clampProb x < p :=
  lt_of_le_of_lt (min_le_left _ _) (max_lt hx hp)

theorem clampProb_eq_self {p : ℚ} (h1 : 1/1000 ≤ p) (h2 : p ≤ 999/1000) :
    clampProb p = p := by
  unfold clampProb
  rw [max_eq_left h1, min_eq_left h2]

theorem normalize_singleton (x : BayesianDiagnosis)
    (h : x.posteriorProbability ≤ 999/1000) :
    normalizeProbabilities [x] = [x] := by
  simp only [normalizeProbabilities, List.map_cons, List.map_nil,
    List.sum_cons, List.sum_nil, add_zero]
  rw [if_neg (not_lt.mpr (by linarith))]

theorem normalize_bounds (ds : List BayesianDiagnosis)
    (h : ∀ d ∈ ds, 1/1000 ≤ d.posteriorProbability ∧
      d.posteriorProbability ≤ 999/1000) :
    ∀ d ∈ normalizeProbabilities ds,
      0 < d.posteriorProbability ∧ d.posteriorProbability ≤ 999/1000 := by
  intro d hd
  simp only [normalizeProbabilities] at hd
  by_cases ht : 1 < (ds.map (fun d => d.posteriorProbability)).sum
  · rw [if_pos ht] at hd
    rw [List.mem_map] at hd
    obtain ⟨x, hx, rfl⟩ := hd
    obtain ⟨hx1, hx2⟩ := h x hx
    have hT : (0:ℚ) < (ds.map (fun d => d.posteriorProbability)).sum := by linarith
    have hfacpos : (0:ℚ) < 19/20 / (ds.map (fun d => d.posteriorProbability)).sum :=
      div_pos (by norm_num) hT
    have hfacle : (19/20 : ℚ) / (ds.map (fun d => d.posteriorProbability)).sum ≤ 1 := by
      rw [div_le_one hT]; linarith
    refine ⟨mul_pos (by linarith) hfacpos, ?_⟩
    calc x.posteriorProbability *
          ((19:ℚ)/20 / (ds.map (fun d => d.posteriorProbability)).sum)
        ≤ x.posteriorProbability * 1 :=
          mul_le_mul_of_nonneg_left hfacle (by linarith)
      _ = x.posteriorProbability := mul_one _
      _ ≤ 999/1000 := hx2
  · rw [if_neg ht] at hd
    exact ⟨by linarith [(h d hd).1], (h d hd).2⟩

theorem initializeEvidenceBase_eq : initializeEvidenceBase = evidenceBaseLit := by
  rfl

/-! ## Literal forms of the concrete engines -/

theorem engC5_diag : engC5.diagnoses =
    [ { condition := "myocardial_infarction", priorProbability := 1/50,
        posteriorProbability := 1/50, likelihood := 1, evidence := [],
        icd10Code := none } ] := by rfl

theorem engC1x_diag : engC1x.diagnoses =
    [ { condition := "myocardial_infarction", priorProbability := 1/1000,
        posteriorProbability := 1/1000, likelihood := 1, evidence := [],
        icd10Code := none },
      { condition := "pneumonia", priorProbability := 9/10,
        posteriorProbability := 9/10, likelihood := 1, evidence := [],
        icd10Code := none },
      { condition := "gastroenteritis", priorProbability := 9/10,
        posteriorProbability := 9/10, likelihood := 1, evidence := [],
        icd10Code := none } ] := by rfl

theorem engC6x_diag : engC6x.diagnoses =
    [ { condition := "pneumonia", priorProbability := 1/2,
        posteriorProbability := 1/2, likelihood := 1, evidence := [],
        icd10Code := none },
      { condition := "gastroenteritis", priorProbability := 9/10,
        posteriorProbability := 9/10, likelihood := 1, evidence := [],
        icd10Code := none } ] := by rfl

theorem engMIHalf_diag : engMIHalf.diagnoses =
    [ { condition := "myocardial_infarction", priorProbability := 1/2,
        posteriorProbability := 1/2, likelihood := 1, evidence := [],
        icd10Code := none } ] := by rfl

theorem engPneuHalf_diag : engPneuHalf.diagnoses =
    [ { condition := "pneumonia", priorProbability := 1/2,
        posteriorProbability := 1/2, likelihood := 1, evidence := [],
        icd10Code := none } ] := by rfl

theorem engC10x_diag : engC10x.diagnoses =
    [ { condition := "pneumonia", priorProbability := 9/10,
        posteriorProbability := 9/10, likelihood := 1, evidence := [],
        icd10Code := none },
      { condition := "gastroenteritis", priorProbability := 9/10,
        posteriorProbability := 9/10, likelihood := 1, evidence := [],
        icd10Code := none } ] := by rfl

/-! ## C1: posterior bounds after an update -/

/-- C1, counterexample.  Three conditions at priors 0.001, 0.9, 0.9 and a
neutral piece of evidence: every per-condition update clamps into
`[0.001, 0.999]`, but the posteriors then sum to 1.801, so the
cross-condition normalization scales by `0.95 / 1.801` and the first
stored posterior ends at `19/36020 ≈ 0.000527 < 0.001`.  This refutes the
claimed invariant `0.001 ≤ posteriorProbability` after the call. -/
theorem c1_counterexample :
    ((updateWithEvidence engC1x evNeutral).2.diagnoses.map
      (fun d => d.posteriorProbability)) = [19/36020, 855/1801, 855/1801] ∧
    ∃ d ∈ (updateWithEvidence engC1x evNeutral).2.diagnoses,
      d.posteriorProbability < 1/1000 := by
  have h1 : calculateLR engC1x "myocardial_infarction" evNeutral = 1 := by rfl
  have h2 : calculateLR engC1x "pneumonia" evNeutral = 1 := by rfl
  have h3 : calculateLR engC1x "gastroenteritis" evNeutral = 1 := by rfl
  have hlist :
      ((updateWithEvidence engC1x evNeutral).2.diagnoses.map
        (fun d => d.posteriorProbability)) = [19/36020, 855/1801, 855/1801] := by
    simp only [updateWithEvidence, engC1x_diag, List.map_cons, List.map_nil,
      updateStep, h1, h2, h3, normalizeProbabilities, List.sum_cons,
      List.sum_nil]
    norm_num [clampProb, min_def, max_def]
  refine ⟨hlist, ?_⟩
  have hmem : (19:ℚ)/36020 ∈
      ((updateWithEvidence engC1x evNeutral).2.diagnoses.map
        (fun d => d.posteriorProbability)) := by
    rw [hlist]; exact List.mem_cons_self _ _
  rw [List.mem_map] at hmem
  obtain ⟨d, hd, hdp⟩ := hmem
  exact ⟨d, hd, by rw [hdp]; norm_num⟩

/-- C1, amended.  After `updateWithEvidence` every stored posterior lies
in `(0, 0.999]`: each per-condition value is clamped into
`[0.001, 0.999]`, and when the clamped values sum above 1 the
normalization multiplies them by the positive factor `0.95 / sum < 1`,
which preserves positivity and the upper bound but can break the 0.001
lower bound.  The hypotheses keep the JavaScript float computation
finite, which is where the rational model applies. -/
theorem c1_amended (e : BayesianDiagnosticEngine) (ev : DiagnosticEvidence)
    (hpost : ∀ d ∈ e.diagnoses,
      0 < d.posteriorProbability ∧ d.posteriorProbability < 1)
    (hconf0 : 0 ≤ ev.confidence) (hconf1 : ev.confidence ≤ 1)
    (hbase : ∀ p ∈ e.evidenceBase, ∀ q ∈ p.2, 0 ≤ q.2) :
    ∀ d ∈ (updateWithEvidence e ev).2.diagnoses,
      0 < d.posteriorProbability ∧ d.posteriorProbability ≤ 999/1000 := by
  intro d hd
  simp only [updateWithEvidence] at hd
  refine normalize_bounds _ ?_ d hd
  intro x hx
  rw [List.map_map, List.mem_map] at hx
  obtain ⟨y, hy, rfl⟩ := hx
  exact ⟨clampProb_ge _, clampProb_le _⟩

/-- Witness for `c1_amended` at a concrete engine and evidence. -/
theorem c1_witness :
    (∀ d ∈ engMIHalf.diagnoses,
      0 < d.posteriorProbability ∧ d.posteriorProbability < 1) ∧
    (0 ≤ evTroponin.confidence ∧ evTroponin.confidence ≤ 1) ∧
    (∀ d ∈ (updateWithEvidence engMIHalf evTroponin).2.diagnoses,
      0 < d.posteriorProbability ∧ d.posteriorProbability ≤ 999/1000) := by
  have hd : ∀ d ∈ engMIHalf.diagnoses,
      0 < d.posteriorProbability ∧ d.posteriorProbability < 1 := by
    rw [engMIHalf_diag]
    intro d hd
    rw [List.mem_singleton] at hd
    subst hd
    norm_num
  have hb : ∀ p ∈ engMIHalf.evidenceBase, ∀ q ∈ p.2, 0 ≤ q.2 := by
    have hlit : engMIHalf.evidenceBase = evidenceBaseLit := by rfl
    rw [hlit]
    simp only [evidenceBaseLit, List.forall_mem_cons, List.forall_mem_nil,
      and_true]
    norm_num
  exact ⟨hd, ⟨by norm_num [evTroponin], by norm_num [evTroponin]⟩,
    c1_amended engMIHalf evTroponin hd (by norm_num [evTroponin])
      (by norm_num [evTroponin]) hb⟩

/-! ## C5: the spec's concrete case 1 -/

/-- C5.  One condition `myocardial_infarction` at prior 0.02; evidence
`troponin_elevated = true` at confidence 0.95 hits the base ratio 20, the
adjusted ratio is `1 + 19 * 0.95 = 19.05 = 381/20`, and the stored
posterior is `381/1361 ≈ 0.27994`, within `10⁻⁴` of the spec's 0.2799. -/
theorem c5_concrete_case1 :
    ((updateWithEvidence engC5 evC5).1.map
      (fun u => u.likelihoodRatioValue)) = [1 + (20 - 1) * (19/20)] ∧
    ((updateWithEvidence engC5 evC5).1.map
      (fun u => u.likelihoodRatioValue)) = [381/20] ∧
    ((updateWithEvidence engC5 evC5).2.diagnoses.map
      (fun d => d.posteriorProbability)) = [381/1361] ∧
    |(381:ℚ)/1361 - 2799/10000| < 1/10000 := by
  have h1 : calculateLR engC5 "myocardial_infarction" evC5 =
      1 + (20 - 1) * (19/20) := by rfl
  refine ⟨?_, ?_, ?_, by rw [abs_sub_lt_iff]; constructor <;> norm_num⟩
  · simp only [updateWithEvidence, engC5_diag, List.map_cons, List.map_nil,
      updateStep, h1]
  · simp only [updateWithEvidence, engC5_diag, List.map_cons, List.map_nil,
      updateStep, h1]
    norm_num
  · simp only [updateWithEvidence, engC5_diag, List.map_cons, List.map_nil,
      updateStep, h1, normalizeProbabilities, List.sum_cons, List.sum_nil]
    norm_num [clampProb, min_def, max_def]

/-! ## C9: information gain does not mutate the belief store -/

/-- C9.  `calculateInformationGain`, embedded in state-passing style with
every helper threaded through, returns the belief store it was given:
every belief record and the set of tracked conditions are unchanged, for
any logarithm, engine and candidate evidence. -/
theorem c9_information_gain_frame (log2 : ℚ → ℚ)
    (e : BayesianDiagnosticEngine) (pe : DiagnosticEvidence) :
    (calculateInformationGain log2 e pe).2 = e ∧
    (calculateInformationGain log2 e pe).2.diagnoses = e.diagnoses ∧
    (calculateInformationGain log2 e pe).2.evidenceBase = e.evidenceBase :=
  ⟨rfl, rfl, rfl⟩

/-! ## C10: returned records hold the pre-normalization posterior -/

/-- C10.  The records returned by `updateWithEvidence` are exactly the
per-condition results computed before the cross-condition normalization,
and each record's `newProbability` is the clamped per-condition posterior
that was stored before normalization ran.  On the concrete engine with
two conditions at 0.9 and neutral evidence, the returned records still
say 0.9 while the store holds `0.9 * 0.95 / 1.8 = 19/40`. -/
theorem c10_prenormalization_records :
    (∀ (e : BayesianDiagnosticEngine) (ev : DiagnosticEvidence),
      (updateWithEvidence e ev).1 =
        e.diagnoses.map (fun d => (updateStep e ev d).1) ∧
      ∀ d : BayesianDiagnosis,
        ((updateStep e ev d).1).newProbability =
          ((updateStep e ev d).2).posteriorProbability) ∧
    ((updateWithEvidence engC10x evNeutral).1.map
      (fun u => u.newProbability) = [9/10, 9/10] ∧
     (updateWithEvidence engC10x evNeutral).2.diagnoses.map
      (fun d => d.posteriorProbability) = [19/40, 19/40] ∧
     ((9:ℚ)/10 ≠ 19/40)) := by
  have h1 : calculateLR engC10x "pneumonia" evNeutral = 1 := by rfl
  have h2 : calculateLR engC10x "gastroenteritis" evNeutral = 1 := by rfl
  refine ⟨fun e ev => ⟨?_, fun d => rfl⟩, ?_, ?_, by norm_num⟩
  · simp only [updateWithEvidence, List.map_map]
    rfl
  · simp only [updateWithEvidence, engC10x_diag, List.map_cons, List.map_nil,
      updateStep, h1, h2]
    norm_num [clampProb, min_def, max_def]
  · simp only [updateWithEvidence, engC10x_diag, List.map_cons, List.map_nil,
      updateStep, h1, h2, normalizeProbabilities, List.sum_cons, List.sum_nil]
    norm_num [clampProb, min_def, max_def]

/-! ## C6: monotonicity of a single update -/

theorem bayes_step_gt (L p : ℚ) (hL : 1 < L) (hp : 0 < p) (hp1 : p < 1) :
    p < L * (p / (1 - p)) / (1 + L * (p / (1 - p))) := by
  have h1p : 0 < 1 - p := by linarith
  have ho : 0 < p / (1 - p) := div_pos hp h1p
  have hLo : 0 < L * (p / (1 - p)) := mul_pos (by linarith) ho
  have hden : 0 < 1 + L * (p / (1 - p)) := by linarith
  rw [lt_div_iff hden]
  have key : L * (p / (1 - p) * (1 - p)) = L * p := by
    rw [div_mul_cancel₀ p h1p.ne']
  nlinarith [key, mul_pos hp (sub_pos.mpr hL)]

theorem bayes_step_lt (L p : ℚ) (hL0 : 0 ≤ L) (hL : L < 1) (hp : 0 < p)
    (hp1 : p < 1) :
    L * (p / (1 - p)) / (1 + L * (p / (1 - p))) < p := by
  have h1p : 0 < 1 - p := by linarith
  have ho : 0 < p / (1 - p) := div_pos hp h1p
  have hLo : 0 ≤ L * (p / (1 - p)) := mul_nonneg hL0 (le_of_lt ho)
  have hden : 0 < 1 + L * (p / (1 - p)) := by linarith
  rw [div_lt_iff hden]
  have key : L * (p / (1 - p) * (1 - p)) = L * p := by
    rw [div_mul_cancel₀ p h1p.ne']
  nlinarith [key, mul_pos hp (sub_pos.mpr hL)]

theorem bayes_step_eq (p : ℚ) (hp1 : p < 1) :
    1 * (p / (1 - p)) / (1 + 1 * (p / (1 - p))) = p := by
  have h1p : (1:ℚ) - p ≠ 0 := sub_ne_zero.mpr (by linarith)
  rw [one_mul]
  have hden : 1 + p / (1 - p) = 1 / (1 - p) := by
    field_simp
  rw [hden]
  field_simp

theorem postAfter_eq_clamp (e : BayesianDiagnosticEngine)
    (d : BayesianDiagnosis) (ev : DiagnosticEvidence)
    (hshape : e.diagnoses = [d]) :
    postAfter e ev =
      clampProb (calculateLR e d.condition ev *
          (d.posteriorProbability / (1 - d.posteriorProbability)) /
        (1 + calculateLR e d.condition ev *
          (d.posteriorProbability / (1 - d.posteriorProbability)))) := by
  simp only [postAfter, updateWithEvidence, hshape, List.map_cons,
    List.map_nil]
  rw [normalize_singleton _ (clampProb_le _)]
  simp only [updateStep, List.map_cons, List.map_nil, List.headD_cons]

/-- C6, counterexample.  Pneumonia at posterior 0.5 receives fever
evidence with base ratio 4 > 1 at confidence 1 > 0, yet its stored
posterior strictly decreases, from 1/2 to 361/830 ≈ 0.435: the
co-tracked gastroenteritis condition jumps to 18/19, the posteriors sum
to 166/95 > 1, and normalization scales pneumonia below its previous
value.  This refutes the claimed strict increase (and the claimed
no-change behavior at ratio 1 fails the same way). -/
theorem c6_counterexample :
    (engC6x.evidenceBase.lookup "pneumonia").bind
      (fun m => m.lookup (generateEvidenceKey evFever)) = some 4 ∧
    (1:ℚ) < 4 ∧ 0 < evFever.confidence ∧
    (engC6x.diagnoses.map (fun d => d.posteriorProbability)) = [1/2, 9/10] ∧
    ((updateWithEvidence engC6x evFever).2.diagnoses.map
      (fun d => d.posteriorProbability)) = [361/830, 171/332] ∧
    (361:ℚ)/830 < 1/2 := by
  have h1 : calculateLR engC6x "pneumonia" evFever = 1 + (4 - 1) * 1 := by rfl
  have h2 : calculateLR engC6x "gastroenteritis" evFever =
      1 + (2 - 1) * 1 := by rfl
  refine ⟨by rfl, by norm_num, by norm_num [evFever], ?_, ?_, by norm_num⟩
  · rw [engC6x_diag]; norm_num
  · simp only [updateWithEvidence, engC6x_diag, List.map_cons, List.map_nil,
      updateStep, h1, h2, normalizeProbabilities, List.sum_cons, List.sum_nil]
    norm_num [clampProb, min_def, max_def]

/-- C6, amended.  For an engine tracking exactly one condition (so that
cross-condition normalization cannot interfere) whose evidence key has
base ratio `lr` in the table: with confidence in `(0, 1]`, a ratio above
1 strictly increases the stored posterior provided the previous posterior
is below the 0.999 clamp, a ratio below 1 strictly decreases it provided
the previous posterior is above the 0.001 clamp, and a ratio of exactly 1
or zero confidence leaves a posterior inside `[0.001, 0.999]` unchanged.
In a multi-condition store the claim fails (`c6_counterexample`). -/
theorem c6_amended (e : BayesianDiagnosticEngine) (d : BayesianDiagnosis)
    (ev : DiagnosticEvidence) (lr : ℚ)
    (hshape : e.diagnoses = [d])
    (hlk : (e.evidenceBase.lookup d.condition).bind
      (fun m => m.lookup (generateEvidenceKey ev)) = some lr)
    (hc0 : 0 ≤ ev.confidence) (hc1 : ev.confidence ≤ 1) (hlr0 : 0 ≤ lr) :
    (1 < lr → 0 < ev.confidence → 0 < d.posteriorProbability →
      d.posteriorProbability < 999/1000 →
      d.posteriorProbability < postAfter e ev) ∧
    (lr < 1 → 0 < ev.confidence → 1/1000 < d.posteriorProbability →
      d.posteriorProbability < 1 →
      postAfter e ev < d.posteriorProbability) ∧
    ((lr = 1 ∨ ev.confidence = 0) → 1/1000 ≤ d.posteriorProbability →
      d.posteriorProbability ≤ 999/1000 →
      postAfter e ev = d.posteriorProbability) := by
  have hLR : calculateLR e d.condition ev =
      1 + (lr - 1) * ev.confidence := by
    simp only [calculateLR]
    rw [hlk]
  have hpa := postAfter_eq_clamp e d ev hshape
  rw [hLR] at hpa
  refine ⟨?_, ?_, ?_⟩
  · intro hlr hc hp hp999
    rw [hpa]
    refine lt_clampProb hp999 ?_
    refine bayes_step_gt _ _ ?_ hp (by linarith)
    nlinarith
  · intro hlr hc hp hp1
    rw [hpa]
    refine clampProb_lt hp ?_
    refine bayes_step_lt _ _ ?_ ?_ (by linarith) hp1
    · nlinarith
    · nlinarith
  · intro hone hp1 hp999
    have hL1 : 1 + (lr - 1) * ev.confidence = 1 := by
      rcases hone with h | h
      · rw [h]; ring
      · rw [h]; ring
    rw [hpa, hL1, bayes_step_eq _ (by linarith : d.posteriorProbability < 1)]
    exact clampProb_eq_self hp1 hp999

/-- Witness for `c6_amended`: troponin at full confidence (ratio 20)
raises a 0.5 posterior; absent fever at full confidence (ratio 0.3)
lowers it; troponin at zero confidence leaves it at 0.5. -/
theorem c6_witness :
    ((1:ℚ)/2 < postAfter engMIHalf evTroponin) ∧
    (postAfter engPneuHalf evNoFever < 1/2) ∧
    (postAfter engMIHalf evTroponinZero = 1/2) := by
  refine ⟨?_, ?_, ?_⟩
  · exact (c6_amended engMIHalf
      { condition := "myocardial_infarction", priorProbability := 1/2,
        posteriorProbability := 1/2, likelihood := 1, evidence := [],
        icd10Code := none } evTroponin 20 engMIHalf_diag (by rfl)
      (by norm_num [evTroponin]) (by norm_num [evTroponin])
      (by norm_num)).1 (by norm_num) (by norm_num [evTroponin])
      (by norm_num) (by norm_num)
  · exact (c6_amended engPneuHalf
      { condition := "pneumonia", priorProbability := 1/2,
        posteriorProbability := 1/2, likelihood := 1, evidence := [],
        icd10Code := none } evNoFever (3/10) engPneuHalf_diag (by rfl)
      (by norm_num [evNoFever]) (by norm_num [evNoFever])
      (by norm_num)).2.1 (by norm_num) (by norm_num [evNoFever])
      (by norm_num) (by norm_num)
  · exact (c6_amended engMIHalf
      { condition := "myocardial_infarction", priorProbability := 1/2,
        posteriorProbability := 1/2, likelihood := 1, evidence := [],
        icd10Code := none } evTroponinZero 20 engMIHalf_diag (by rfl)
      (by norm_num [evTroponinZero]) (by norm_num [evTroponinZero])
      (by norm_num)).2.2 (Or.inr (by norm_num [evTroponinZero]))
      (by norm_num) (by norm_num)

/-! ## C4: the question-generation policy -/

theorem shouldGen_eq (s : MedicalDiagnosticState) :
    shouldGenerateQuestions s =
      (decide (s.confidenceLevel < 3/5) ||
       decide (4 < s.differentialDiagnoses.length) ||
       hasInfoRequests s ||
       decide (s.currentPhase = DiagnosticPhase.information_gathering)) := by
  unfold shouldGenerateQuestions
  by_cases h1 : s.confidenceLevel < 3/5 <;>
    by_cases h2 : 4 < s.differentialDiagnoses.length <;>
      by_cases h3 : hasInfoRequests s = true <;>
        by_cases h4 : s.currentPhase = DiagnosticPhase.information_gathering <;>
          simp [h1, h2, h3, h4]

/-- C4, counterexample.  A state with a pending question and confidence
0.3 still makes `shouldGenerateQuestions` return `true`: the
low-confidence check runs before the pending-questions check, so the
policy is not suppressed by a non-empty `pendingQuestions` list. -/
theorem c4_counterexample :
    sC4x.pendingQuestions ≠ [] ∧ shouldGenerateQuestions sC4x = true := by
  constructor
  · decide
  · have h : sC4x.confidenceLevel < 3/5 := by norm_num [sC4x, baseState]
    unfold shouldGenerateQuestions
    rw [if_pos h]

/-- C4, amended.  `shouldGenerateQuestions` returns `true` exactly when
confidence is below 0.6, more than four differential diagnoses are live,
one of the last two agent turns contains an information-request marker,
or the phase is `information_gathering`.  In particular the result is
independent of `pendingQuestions` (the guard sits below checks that can
return `true`, and both terminal branches return `false`, so it is dead)
and of `interactionRound` (never consulted), contrary to both halves of
the claim. -/
theorem c4_amended :
    (∀ s : MedicalDiagnosticState,
      shouldGenerateQuestions s =
        (decide (s.confidenceLevel < 3/5) ||
         decide (4 < s.differentialDiagnoses.length) ||
         hasInfoRequests s ||
         decide (s.currentPhase = DiagnosticPhase.information_gathering))) ∧
    (∀ (s : MedicalDiagnosticState) (pq : List PatientQuestion) (ir : ℕ),
      shouldGenerateQuestions
        { s with pendingQuestions := pq, interactionRound := ir } =
        shouldGenerateQuestions s) := by
  refine ⟨shouldGen_eq, fun s pq ir => ?_⟩
  rw [shouldGen_eq, shouldGen_eq]
  rfl

/-! ## C2: budget exhaustion and routing priority -/

/-- C2, counterexample.  With `cumulativeCost = costBudget` but
`awaitingUserInput` set, `routeWorkflow` returns `patient_interaction`,
not the final-assessment path: the user-input check has higher priority
than the budget check. -/
theorem c2_counterexample :
    (sC2x.costBudget ≤ sC2x.cumulativeCost) ∧
    routeWorkflow sC2x = "patient_interaction" ∧
    "patient_interaction" ≠ "final_assessment" := by
  refine ⟨by norm_num [sC2x, baseState], ?_, by decide⟩
  have h : sC2x.awaitingUserInput = true := rfl
  unfold routeWorkflow
  rw [if_pos h]

/-- C2, amended.  Budget exhaustion forces the final-assessment route
only once the higher-priority rules are out of the way: no pending user
input, the question-generation policy declines, and the
interaction-floor override (ready/final phase with `interactionRound < 3`
and confidence `< 0.8`) does not fire. -/
theorem c2_amended (s : MedicalDiagnosticState)
    (hcost : s.costBudget ≤ s.cumulativeCost)
    (hawait : s.awaitingUserInput = false)
    (hq : shouldGenerateQuestions s = false)
    (hover : (s.readyForDiagnosis = true ∨
        s.currentPhase = DiagnosticPhase.final_diagnosis) →
      ¬(s.interactionRound < 3 ∧ s.confidenceLevel < 4/5)) :
    routeWorkflow s = "final_assessment" := by
  unfold routeWorkflow
  rw [if_neg (by simp [hawait]), if_neg (by simp [hq])]
  by_cases hr : s.readyForDiagnosis = true ∨
      s.currentPhase = DiagnosticPhase.final_diagnosis
  · rw [if_pos hr, if_neg (hover hr)]
  · rw [if_neg hr, if_pos hcost]

/-- Witness for `c2_amended` at a quiescent state sitting exactly at its
budget. -/
theorem c2_witness :
    (sC2w.costBudget ≤ sC2w.cumulativeCost) ∧
    routeWorkflow sC2w = "final_assessment" := by
  have h1 : sC2w.costBudget ≤ sC2w.cumulativeCost := by
    norm_num [sC2w, baseState]
  have h2 : shouldGenerateQuestions sC2w = false := by
    rw [shouldGen_eq]
    norm_num [sC2w, baseState, hasInfoRequests]
    decide
  exact ⟨h1, c2_amended sC2w h1 rfl h2
    (fun _ => by norm_num [sC2w, baseState])⟩

/-! ## C3: the interaction floor under low confidence -/

/-- C3, counterexample.  From a deliberation-phase state with
`interactionRound = 0` but confidence 0.9 ≥ 0.8 and the ready flag set,
`routeWorkflow` goes straight to the final-assessment path: the
interaction-floor override only fires when confidence is also below 0.8,
so the claimed unconditional redirect to `patient_interaction` is false.
-/
theorem c3_counterexample :
    sC3x.interactionRound = 0 ∧
    sC3x.currentPhase = DiagnosticPhase.deliberation ∧
    routeWorkflow sC3x = "final_assessment" := by
  refine ⟨rfl, rfl, ?_⟩
  have hq : shouldGenerateQuestions sC3x = false := by
    rw [shouldGen_eq]
    norm_num [sC3x, baseState, hasInfoRequests]
    decide
  unfold routeWorkflow
  rw [if_neg (by decide : ¬(sC3x.awaitingUserInput = true)),
    if_neg (by simp [hq]),
    if_pos (Or.inl (by decide : sC3x.readyForDiagnosis = true)),
    if_neg (by norm_num [sC3x, baseState])]

/-- C3, amended.  With `interactionRound = 0`, confidence below 0.8 and
the budget not exhausted, no deliberation-phase route reaches the
final-assessment path: every branch that could finalize is redirected to
`patient_interaction` (or back into the debate loop). -/
theorem c3_amended (s : MedicalDiagnosticState)
    (hir : s.interactionRound = 0)
    (hph : s.currentPhase = DiagnosticPhase.deliberation)
    (hconf : s.confidenceLevel < 4/5)
    (hcost : s.cumulativeCost < s.costBudget) :
    routeWorkflow s ≠ "final_assessment" := by
  have hir3 : s.interactionRound < 3 := by omega
  unfold routeWorkflow
  by_cases h1 : s.awaitingUserInput = true
  · rw [if_pos h1]; decide
  rw [if_neg h1]
  by_cases h2 : shouldGenerateQuestions s = true
  · rw [if_pos h2]; decide
  rw [if_neg h2]
  by_cases h3 : s.readyForDiagnosis = true ∨
      s.currentPhase = DiagnosticPhase.final_diagnosis
  · rw [if_pos h3, if_pos ⟨hir3, hconf⟩]; decide
  rw [if_neg h3, if_neg (not_le.mpr hcost)]
  by_cases h4 : 5 ≤ s.debateRound
  · rw [if_pos h4, if_pos (Or.inl hir3)]; decide
  rw [if_neg h4]
  by_cases h5 : 0 < s.debateRound ∧ s.debateRound % 2 = 0 ∧
      s.interactionRound < 3
  · rw [if_pos h5]; decide
  rw [if_neg h5]
  rcases hL : s.agentTurns.getLast? with _ | turn
  · simp only [hL]; decide
  · rcases hT : turn.testsRequested with _ | tests
    · simp only [hL, hT]; decide
    · simp only [hL, hT]
      split
      · decide
      · decide

/-- Witness for `c3_amended` at a deliberation state with confidence 0.7
and the ready flag set. -/
theorem c3_witness :
    (sC3w.interactionRound = 0 ∧
     sC3w.currentPhase = DiagnosticPhase.deliberation ∧
     sC3w.confidenceLevel < 4/5 ∧
     sC3w.cumulativeCost < sC3w.costBudget) ∧
    routeWorkflow sC3w ≠ "final_assessment" :=
  ⟨⟨rfl, rfl, by norm_num [sC3w, baseState], by norm_num [sC3w, baseState]⟩,
    c3_amended sC3w rfl rfl (by norm_num [sC3w, baseState])
      (by norm_num [sC3w, baseState])⟩

/-! ## C7: synthesis of the debate results -/

/-- C7.  On a differential list sorted descending by probability (the
invariant `updateDifferentialDiagnoses` maintains), the synthesis step
takes the first element as `finalDiagnosis` (`none` exactly on the empty
list), a top element dominates every probability in the list, the
confidence is the top probability divided by 100, and
`readyForDiagnosis` holds exactly when that confidence reaches the
configured threshold. -/
theorem c7_synthesis (cfg : DebateConfiguration) (s : MedicalDiagnosticState)
    (hsorted : s.differentialDiagnoses.Pairwise
      (fun a b => b.probability ≤ a.probability)) :
    ((synthesizeDebateResults cfg s).finalDiagnosis =
      s.differentialDiagnoses.head?) ∧
    ((synthesizeDebateResults cfg s).finalDiagnosis = none ↔
      s.differentialDiagnoses = []) ∧
    (∀ d, (synthesizeDebateResults cfg s).finalDiagnosis = some d →
      (synthesizeDebateResults cfg s).confidenceLevel = d.probability / 100 ∧
      ∀ x ∈ s.differentialDiagnoses, x.probability ≤ d.probability) ∧
    ((synthesizeDebateResults cfg s).readyForDiagnosis = true ↔
      cfg.confidenceThreshold ≤ (synthesizeDebateResults cfg s).confidenceLevel) := by
  refine ⟨rfl, ?_, ?_, ?_⟩
  · show s.differentialDiagnoses.head? = none ↔ s.differentialDiagnoses = []
    exact List.head?_eq_none_iff
  · intro d hd
    replace hd : s.differentialDiagnoses.head? = some d := hd
    cases hdd : s.differentialDiagnoses with
    | nil => rw [hdd] at hd; exact absurd hd (by simp)
    | cons a tl =>
      rw [hdd] at hd
      simp only [List.head?_cons, Option.some.injEq] at hd
      subst hd
      rw [hdd] at hsorted
      rw [List.pairwise_cons] at hsorted
      constructor
      · simp only [synthesizeDebateResults, hdd, List.head?_cons]
      · intro x hx
        rw [List.mem_cons] at hx
        rcases hx with h | h
        · subst h; exact le_refl _
        · exact hsorted.1 x h
  · show (decide (cfg.confidenceThreshold ≤ _) = true) ↔ _
    exact decide_eq_true_iff

/-- Witness for `c7_synthesis` on a two-element sorted differential. -/
theorem c7_witness :
    (sC7w.differentialDiagnoses.Pairwise
      (fun a b => b.probability ≤ a.probability)) ∧
    ((synthesizeDebateResults defaultDebateConfig sC7w).finalDiagnosis =
      sC7w.differentialDiagnoses.head?) ∧
    ((synthesizeDebateResults defaultDebateConfig sC7w).readyForDiagnosis = true ↔
      defaultDebateConfig.confidenceThreshold ≤
        (synthesizeDebateResults defaultDebateConfig sC7w).confidenceLevel) := by
  have hs : sC7w.differentialDiagnoses.Pairwise
      (fun a b => b.probability ≤ a.probability) := by
    show ddC7.Pairwise _
    rw [ddC7, List.pairwise_cons, List.pairwise_cons]
    refine ⟨?_, ?_, List.Pairwise.nil⟩
    · intro x hx
      rw [List.mem_singleton] at hx
      subst hx
      norm_num
    · intro x hx
      exact absurd hx (List.not_mem_nil x)
  have h := c7_synthesis defaultDebateConfig sC7w hs
  exact ⟨hs, h.1, h.2.2.2⟩

/-! ## C8: idempotent case re-initialization -/

/-- C8.  When a patient id is already present (a resume from an
interrupt), `initializeCase` returns the empty update: applying it
through the channel reducers leaves every state field unchanged and the
update carries no messages, independent of the extraction oracle and the
clock. -/
theorem c8_idempotent_reentry (s : MedicalDiagnosticState) (now : ℕ)
    (extractResult : Option CaseInformation)
    (h : s.availableCaseInfo.patientId ≠ "") :
    applyUpdate s (initializeCase s now extractResult) = s ∧
    (initializeCase s now extractResult).messages = none := by
  have hinit : initializeCase s now extractResult = {} := by
    unfold initializeCase
    rw [if_pos h]
  rw [hinit]
  refine ⟨?_, rfl⟩
  simp [applyUpdate]

/-- Witness for `c8_idempotent_reentry`: a second initialization on a
state with patient id `CASE_1` is the identity. -/
theorem c8_witness :
    (baseState.availableCaseInfo.patientId ≠ "") ∧
    applyUpdate baseState (initializeCase baseState 0 none) = baseState ∧
    (initializeCase baseState 0 none).messages = none := by
  have h : baseState.availableCaseInfo.patientId ≠ "" := by decide
  exact ⟨h, (c8_idempotent_reentry baseState 0 none h).1,
    (c8_idempotent_reentry baseState 0 none h).2⟩
